import Mathlib

/-!
Verification of the `DebankClient` HTTP wrapper of the Debank repository
(`src/debank_client.py`, with near-identical copies in `src/shadow_nav_board.py`)
against its natural-language specification.

The embedding models:
* JSON values (as produced by the `requests` library's `r.json()`);
* `DebankClient.__init__` (API-key resolution, base-URL normalization, and the
  urllib3 `Retry` configuration it installs);
* `DebankClient._diagnose_dns` and `DebankClient._get`, including the retry
  behaviour of the mounted `HTTPAdapter(max_retries=Retry(total=max_retries,
  backoff_factor=backoff, status_forcelist=[429, 500, 502, 503, 504],
  allowed_methods=["GET"], raise_on_status=False))`.  The retry loop itself
  lives in the third-party urllib3 library, not in this repository; it is
  modelled here from urllib3's `Retry.get_backoff_time` /
  `HTTPConnectionPool.urlopen` semantics (no sleep before the first retry,
  then `min(120, backoff_factor * 2 ** (n - 1))` before retry `n`; with
  `raise_on_status=False` an exhausted status-forcelist retry returns the
  last response; an exhausted transport-error retry raises, surfacing as a
  `requests.RequestException`).  Responses are assumed to carry no
  `Retry-After` header and redirects are not modelled (no claim concerns
  them).
* the endpoint parameter builders `get_all_history_list` / `get_history_list`
  and the aggregation helper `summarize_wallet`.

Machine floats of the Python code (`backoff: float`, JSON numbers) are
idealized as rationals; the wall clock is represented by the list of sleep
durations the retry machinery requests.
-/

/-- JSON values, as returned by `requests.Response.json()`.  Python `dict`s
become ordered association lists with distinct keys (only top-level lookup is
ever performed by the code under verification). -/
inductive Json where
  | null : Json
  | bool (b : Bool) : Json
  | num (q : ℚ) : Json
  | str (s : String) : Json
  | arr (elems : List Json) : Json
  | obj (fields : List (String × Json)) : Json

/-- First-match lookup in a JSON object's field list (Python `d[k]` / `k in d`
on a `dict`; keys of parsed JSON objects are distinct). -/
def lookupField (k : String) : List (String × Json) → Option Json
  | [] => none
  | (k', v) :: rest => if k' = k then some v else lookupField k rest

/-- Python `total.get(key)`: the value under `key`, or `None` when the key is
absent.  (Only ever applied by the code to payloads that are objects; on
non-objects we return `null`, where Python would raise `AttributeError`.) -/
def Json.get (j : Json) (k : String) : Json :=
  match j with
  | .obj fields =>
    match lookupField k fields with
    | some v => v
    | none => .null
  | _ => .null

/-- Python truthiness of a parsed-JSON value (`bool(x)`). -/
def Json.truthy : Json → Bool
  | .null => false
  | .bool b => b
  | .num q => decide (q ≠ 0)
  | .str s => decide (s ≠ "")
  | .arr elems => !elems.isEmpty
  | .obj fields => !fields.isEmpty

/-- Python `a or b` on parsed-JSON values. -/
def pyOr (a b : Json) : Json := if a.truthy then a else b

/-- Python `a or b` where `a` is an `Optional[str]` (`None` and `""` are
falsy). -/
def pyOrOpt (a b : Option String) : Option String :=
  match a with
  | some s => if s = "" then b else some s
  | none => b

/-- `str.rstrip("/")`: remove every trailing `'/'`. -/
def rstrip_slashes (s : String) : String :=
  ⟨(s.data.reverse.dropWhile (fun c => c = '/')).reverse⟩

/-- If `sep` is a leading segment of `l`, return the remainder. -/
def stripLead : List Char → List Char → Option (List Char)
  | [], l => some l
  | _ :: _, [] => none
  | a :: as, b :: bs => if a = b then stripLead as bs else none

/-- Split `l` at the first occurrence of `sep` (Python `l.split(sep, 1)` when
`sep` occurs), returning the parts before and after it. -/
def splitFirst (sep : List Char) : List Char → Option (List Char × List Char)
  | [] => none
  | c :: cs =>
    match stripLead sep (c :: cs) with
    | some rest => some ([], rest)
    | none =>
      match splitFirst sep cs with
      | some (pre, post) => some (c :: pre, post)
      | none => none

/-- Python `s.split(sep, 1)[-1]`: everything after the first occurrence of
`sep`, or `s` itself when `sep` does not occur. -/
def afterFirst (sep s : String) : String :=
  match splitFirst sep.data s.data with
  | some (_, post) => ⟨post⟩
  | none => s

/-- Python `s.split(sep, 1)[0]`: everything before the first occurrence of
`sep`, or `s` itself when `sep` does not occur. -/
def beforeFirst (sep s : String) : String :=
  match splitFirst sep.data s.data with
  | some (pre, _) => ⟨pre⟩
  | none => s

/-- `self.base_url.split("://", 1)[-1].split("/", 1)[0]`
(`DebankClient._diagnose_dns`, src/debank_client.py line 65). -/
def extractHost (baseUrl : String) : String :=
  beforeFirst "/" (afterFirst "://" baseUrl)

/-- `DEFAULT_BASE_URL` (src/debank_client.py line 17). -/
def DEFAULT_BASE_URL : String := "https://api.cloud.debank.com"

/-- The configuration state a successfully constructed `DebankClient` holds
(src/debank_client.py lines 32-53).  The `Retry` object mounted on the
session is determined by `max_retries` and `backoff`; its fixed
`status_forcelist` appears in `session_get` below. -/
structure ClientCfg where
  base_url : String
  api_key : String
  header_name : String
  timeout : Int
  max_retries : Nat
  backoff : ℚ
deriving DecidableEq

/-- `api_key or os.getenv("DEBANK_API_KEY")` (src/debank_client.py line 33):
the key that construction resolves, if any. -/
def resolve_key (api_key : Option String) (env : String → Option String) :
    Option String :=
  pyOrOpt api_key (env "DEBANK_API_KEY")

/-- The message of the `ValueError` raised on a missing key
(src/debank_client.py line 35). -/
def missing_key_msg : String :=
  "Missing API key. Set DEBANK_API_KEY or pass api_key=..."

/-- `(base_url or DEFAULT_BASE_URL).rstrip("/")` (src/debank_client.py
line 32). -/
def normalized_base (base_url : String) : String :=
  rstrip_slashes (if base_url = "" then DEFAULT_BASE_URL else base_url)

/-- `header_name or os.getenv("DEBANK_HEADER_NAME", "AccessKey")`
(src/debank_client.py line 37). -/
def resolve_header (header_name : Option String)
    (env : String → Option String) : String :=
  let hdr_env := (env "DEBANK_HEADER_NAME").getD "AccessKey"
  match header_name with
  | some h => if h = "" then hdr_env else h
  | none => hdr_env

/-- `DebankClient.__init__` (src/debank_client.py lines 23-53).  `env` models
`os.getenv`; Python defaults are `base_url = DEFAULT_BASE_URL`,
`header_name = None`, `timeout = 20`, `max_retries = 3`, `backoff = 0.8`.
Constructing the session and mounting the retry adapter performs no network
activity, so construction is a pure function of its arguments. -/
def init_client (api_key : Option String) (base_url : String)
    (header_name : Option String) (timeout : Int) (max_retries : Nat)
    (backoff : ℚ) (env : String → Option String) : Except String ClientCfg :=
  match resolve_key api_key env with
  | none => .error missing_key_msg
  | some k =>
    if k = "" then .error missing_key_msg
    else
      .ok ⟨normalized_base base_url, k, resolve_header header_name env,
           timeout, max_retries, backoff⟩

/-- An HTTP response body as seen by the client: the raw text and, when the
text parses as JSON, the parsed value (`r.json()` succeeds iff `json` is
`some`). -/
structure Body where
  text : String
  json : Option Json

/-- Outcome of one physical GET request issued by the pooled transport
(attempts are numbered from 1). -/
inductive AttemptOutcome where
  | exn (msg : String) : AttemptOutcome
  | resp (status : Nat) (body : Body) : AttemptOutcome

/-- What `self.session.get(...)` ultimately produces once the urllib3 retry
machinery finishes: a response handed back to `_get`, or a transport
exception (`requests.exceptions.RequestException`) carrying the last
underlying error. -/
inductive SessResult where
  | resp (status : Nat) (body : Body) : SessResult
  | exn (msg : String) : SessResult

/-- Result of the whole session call, together with how many physical
transport attempts were made and which sleeps the retry machinery performed
(in order). -/
structure SessOutcome where
  result : SessResult
  invocations : Nat
  sleeps : List ℚ

/-- urllib3 `Retry.get_backoff_time` before performing retry number `n`
(1-indexed; `n` equals the length of the retry history at that point): `0`
before the first retry, otherwise `backoff_factor * 2 ** (n - 1)` capped at
`DEFAULT_BACKOFF_MAX = 120` seconds. -/
def backoff_time (b : ℚ) (n : Nat) : ℚ :=
  if n ≤ 1 then 0 else min 120 (b * 2 ^ (n - 1))

/-- The `status_forcelist` installed by `DebankClient.__init__`
(src/debank_client.py line 47). -/
def status_forcelist : List Nat := [429, 500, 502, 503, 504]

/-- The urllib3 retry loop for a GET through the adapter mounted in
`DebankClient.__init__`: `remaining` is the remaining `Retry.total` budget and
`attempt` the 1-based number of the attempt about to be issued.  A transport
error with no budget left raises (becoming a `requests` exception); a
response whose status is in the forcelist is retried while budget remains and
— because `raise_on_status=False` — is returned as-is once the budget is
exhausted; any other response is returned immediately.  Before retry `n` the
machinery sleeps `backoff_time b n`. -/
def session_go (t : Nat → AttemptOutcome) (b : ℚ) (fl : List Nat) :
    Nat → Nat → SessOutcome
  | 0, attempt =>
    match t attempt with
    | .exn e => ⟨.exn e, 1, []⟩
    | .resp st body => ⟨.resp st body, 1, []⟩
  | r + 1, attempt =>
    match t attempt with
    | .exn _ =>
      let rest := session_go t b fl r (attempt + 1)
      ⟨rest.result, rest.invocations + 1, backoff_time b attempt :: rest.sleeps⟩
    | .resp st body =>
      if st ∈ fl then
        let rest := session_go t b fl r (attempt + 1)
        ⟨rest.result, rest.invocations + 1, backoff_time b attempt :: rest.sleeps⟩
      else ⟨.resp st body, 1, []⟩

/-- `self.session.get(url, ...)` under the retry configuration installed by
`__init__` (src/debank_client.py lines 44-53): at most `max_retries` retries
after the initial attempt. -/
def session_get (cl : ClientCfg) (t : Nat → AttemptOutcome) : SessOutcome :=
  session_go t cl.backoff status_forcelist cl.max_retries 1

/-- The remediation hint appended to the DNS diagnosis
(src/debank_client.py line 76). -/
def dns_hint : String := ". Try switching networks or DNS (1.1.1.1 / 8.8.8.8)."

/-- The f-string built by `_diagnose_dns` when resolution fails
(src/debank_client.py line 69). -/
def dns_diagnosis (base_url err : String) : String :=
  "DNS failed for host in Base URL '" ++ base_url ++ "': " ++ err

/-- `DebankClient._diagnose_dns` (src/debank_client.py lines 63-69).  `dns`
models `socket.gethostbyname`: `none` means the host resolves, `some e` means
resolution raised an exception rendered as `e`. -/
def diagnose_dns (base_url : String) (dns : String → Option String) :
    Option String :=
  match dns (extractHost base_url) with
  | none => none
  | some e => some (dns_diagnosis base_url e)

/-- The four `raise DebankError(...)` sites of `DebankClient._get`, by the
data each message is built from (src/debank_client.py lines 76, 82, 86, 98).
In Python all four raise the single class `DebankError`; the constructors
record which message was raised. -/
inductive DebankError where
  | dnsFailure (diagnosis : String) : DebankError
  | networkFailure (url : String) (err : String) : DebankError
  | rateLimited : DebankError
  | httpStatus (status : Nat) (path : String) (body : Body) : DebankError

/-- The body excerpt interpolated into the HTTP-error message
(src/debank_client.py lines 93-97): the parsed JSON when the body parses
(rendered here by its raw text; no claim inspects this rendering), else the
first 500 characters of the raw text. -/
def body_excerpt (b : Body) : String :=
  match b.json with
  | some _ => b.text
  | none => b.text.take 500

/-- The exact message string each raise site passes to `DebankError`. -/
def DebankError.message : DebankError → String
  | .dnsFailure diagnosis => diagnosis ++ dns_hint
  | .networkFailure url err =>
    "Network error calling " ++ url ++ ": " ++ err ++ ". Check VPN/Proxy/DNS."
  | .rateLimited =>
    "Rate limited by DeBank (HTTP 429). Reduce frequency or add backoff."
  | .httpStatus status path body =>
    "HTTP " ++ toString status ++ " on " ++ path ++ ": " ++ body_excerpt body

/-- How a call to `_get` can fail: with a raised `DebankError`, or — for a
2xx/3xx response whose body is not JSON — with the `r.json()` parse exception
of line 101, which is raised outside every `try` block and therefore escapes
`_get` unclassified. -/
inductive GetError where
  | debank (e : DebankError) : GetError
  | jsonDecode (text : String) : GetError

/-- Query-parameter values the endpoint methods put into `params` (strings
and ints; booleans are pre-rendered to `"true"`/`"false"` strings by the
callers, as in `str(is_all).lower()`). -/
inductive ParamVal where
  | s (v : String) : ParamVal
  | i (v : Int) : ParamVal
deriving DecidableEq

abbrev Params := List (String × ParamVal)

/-- The payload normalization of `_get` (src/debank_client.py lines 100-104):
`if isinstance(data, dict) and "data" in data: return data["data"]` else the
parsed value unchanged. -/
def normalize_payload (j : Json) : Json :=
  match j with
  | .obj fields =>
    match lookupField "data" fields with
    | some v => v
    | none => j
  | _ => j

/-- Result of `_get`: the returned payload or the raised exception, plus the
number of physical transport attempts made and the sleeps performed. -/
structure GetOutcome where
  result : Except GetError Json
  invocations : Nat
  sleeps : List ℚ

/-- `DebankClient._get` (src/debank_client.py lines 71-104).  `dns` models
`socket.gethostbyname`, `t` the pooled transport.  Order of checks follows
the source: DNS pre-check, `session.get` (with the urllib3 retries), the
manual 429 check, `raise_for_status` (raises for statuses in [400, 600)),
then JSON parsing and envelope normalization.  `params` and the headers do
not influence control flow and are not consumed here. -/
def debank_get (cl : ClientCfg) (dns : String → Option String)
    (t : Nat → AttemptOutcome) (path : String) (_params : Params) : GetOutcome :=
  match diagnose_dns cl.base_url dns with
  | some issue => ⟨.error (.debank (.dnsFailure issue)), 0, []⟩
  | none =>
    let s := session_get cl t
    match s.result with
    | .exn e =>
      ⟨.error (.debank (.networkFailure (cl.base_url ++ path) e)),
        s.invocations, s.sleeps⟩
    | .resp st body =>
      if st = 429 then ⟨.error (.debank .rateLimited), s.invocations, s.sleeps⟩
      else if 400 ≤ st ∧ st < 600 then
        ⟨.error (.debank (.httpStatus st path body)), s.invocations, s.sleeps⟩
      else
        match body.json with
        | none => ⟨.error (.jsonDecode body.text), s.invocations, s.sleeps⟩
        | some j => ⟨.ok (normalize_payload j), s.invocations, s.sleeps⟩

/-- Parameter dict built by `DebankClient.get_all_history_list`
(src/debank_client.py lines 143-147): `start_time` is appended only when
`if start_time:` is truthy, i.e. when it is neither `None` nor `0`. -/
def get_all_history_list_params (addr : String) (start_time : Option Int)
    (page_count : Int) : Params :=
  let base : Params := [("id", .s addr), ("page_count", .i page_count)]
  match start_time with
  | none => base
  | some v => if v = 0 then base else base ++ [("start_time", .i v)]

/-- Parameter dict built by `DebankClient.get_history_list`
(src/debank_client.py lines 149-153). -/
def get_history_list_params (addr chain_id : String) (start_time : Option Int)
    (page_count : Int) : Params :=
  let base : Params :=
    [("id", .s addr), ("chain_id", .s chain_id), ("page_count", .i page_count)]
  match start_time with
  | none => base
  | some v => if v = 0 then base else base ++ [("start_time", .i v)]

/-- The keys of a parameter dict, in insertion order. -/
def paramKeys (ps : Params) : List String := ps.map Prod.fst

/-- The `(path, params)` request issued by `DebankClient.get_total_balance`
(src/debank_client.py lines 107-108). -/
def total_balance_req (addr : String) : String × Params :=
  ("/v1/user/total_balance", [("id", .s addr)])

/-- The request issued by `DebankClient.get_used_chains`
(src/debank_client.py lines 113-114). -/
def used_chains_req (addr : String) : String × Params :=
  ("/v1/user/used_chain_list", [("id", .s addr)])

/-- The request issued by `DebankClient.get_complex_protocol_list`
(src/debank_client.py lines 127-130): with a truthy `chain_id` the per-chain
endpoint, otherwise the aggregated one. -/
def complex_protocol_req (addr : String) (chain_id : Option String) :
    String × Params :=
  match chain_id with
  | some cid =>
    if cid = "" then ("/v1/user/all_complex_protocol_list", [("id", .s addr)])
    else ("/v1/user/complex_protocol_list", [("id", .s addr), ("chain_id", .s cid)])
  | none => ("/v1/user/all_complex_protocol_list", [("id", .s addr)])

/-- Result of `summarize_wallet` together with the list of `_get` paths it
called, in order (the call is aborted by the first raised error, as Python
exception propagation does). -/
structure SummarizeOutcome where
  result : Except GetError Json
  calls : List String

/-- `DebankClient.summarize_wallet` (src/debank_client.py lines 163-173),
with `g` standing for `self._get`.  The three endpoint wrappers are inlined
through their request builders above; the composed record mirrors the Python
dict literal, with `net_usd = total.get("net_usd_value") or
total.get("usd_value")`. -/
def summarize_wallet (g : String → Params → Except GetError Json)
    (addr : String) : SummarizeOutcome :=
  let r1 := total_balance_req addr
  match g r1.1 r1.2 with
  | .error e => ⟨.error e, [r1.1]⟩
  | .ok total =>
    let r2 := used_chains_req addr
    match g r2.1 r2.2 with
    | .error e => ⟨.error e, [r1.1, r2.1]⟩
    | .ok chains =>
      let r3 := complex_protocol_req addr none
      match g r3.1 r3.2 with
      | .error e => ⟨.error e, [r1.1, r2.1, r3.1]⟩
      | .ok positions =>
        ⟨.ok (.obj
          [("address", .str addr),
           ("total_usd", total.get "usd_value"),
           ("net_usd", pyOr (total.get "net_usd_value") (total.get "usd_value")),
           ("chains", chains),
           ("positions", positions)]), [r1.1, r2.1, r3.1]⟩

/-- Does the outcome of `_get` consist of a raised `DebankError` (as opposed
to returning a payload or letting an unclassified exception escape)? -/
def raisedDebank (o : GetOutcome) : Bool :=
  match o.result with
  | .error (.debank _) => true
  | _ => false

/-! ### Concrete fixtures used by witnesses and counterexamples -/

/-- A concrete client: defaults of `DebankClient.__init__` with key `"k"`
(`timeout=20`, `max_retries=3`, `backoff=0.8`). -/
def cl0 : ClientCfg := ⟨"https://api.cloud.debank.com", "k", "AccessKey", 20, 3, 4/5⟩

/-- A DNS oracle under which every host resolves. -/
def dns_ok : String → Option String := fun _ => none

/-- A DNS oracle failing exactly for the default host. -/
def dns_fail : String → Option String :=
  fun h => if h = "api.cloud.debank.com" then some "getaddrinfo failed" else none

/-- Transport answering 429 on the first attempt and succeeding afterwards. -/
def t_429_then_ok : Nat → AttemptOutcome := fun n =>
  if n = 1 then .resp 429 ⟨"slow down", none⟩
  else .resp 200 ⟨"d", some (.obj [("data", .str "ok")])⟩

/-- Transport answering 429 on every attempt. -/
def t_429_always : Nat → AttemptOutcome := fun _ => .resp 429 ⟨"slow down", none⟩

/-- Transport failing once at the connection level, then succeeding. -/
def t_fail_once : Nat → AttemptOutcome := fun n =>
  if n = 1 then .exn "boom" else .resp 200 ⟨"{}", some (.obj [])⟩

/-- Transport failing twice at the connection level, then succeeding. -/
def t_fail_twice : Nat → AttemptOutcome := fun n =>
  if n ≤ 2 then .exn "boom" else .resp 200 ⟨"[]", some (.arr [])⟩

/-- Transport failing at the connection level on every attempt. -/
def t_fail_always : Nat → AttemptOutcome := fun _ => .exn "conn refused"

/-- Transport returning a 2xx whose body is not JSON. -/
def t_bad_json : Nat → AttemptOutcome := fun _ => .resp 200 ⟨"<html>", none⟩

/-- `_get` responder whose total-balance payload carries a falsy
`net_usd_value` of `0`. -/
def g_net_zero : String → Params → Except GetError Json := fun p _ =>
  if p = "/v1/user/total_balance" then
    .ok (.obj [("usd_value", .num 100), ("net_usd_value", .num 0)])
  else .ok (.arr [])

/-- `_get` responder whose total-balance payload is
`{"usd_value": 100, "net_usd_value": 90}`. -/
def g_net_90 : String → Params → Except GetError Json := fun p _ =>
  if p = "/v1/user/total_balance" then
    .ok (.obj [("usd_value", .num 100), ("net_usd_value", .num 90)])
  else .ok (.arr [])

/-- `_get` responder whose total-balance payload is `{"usd_value": 100}`. -/
def g_no_net : String → Params → Except GetError Json := fun p _ =>
  if p = "/v1/user/total_balance" then .ok (.obj [("usd_value", .num 100)])
  else .ok (.arr [])

/-! ### Helper lemmas about the retry loop and the string utilities -/

theorem sleeps_shift (b : ℚ) (a r : Nat) :
    backoff_time b a :: List.map (fun i => backoff_time b (a + 1 + i)) (List.range r)
      = List.map (fun i => backoff_time b (a + i)) (List.range (r + 1)) := by
  rw [List.range_succ_eq_map, List.map_cons, List.map_map]
  refine congrArg₂ _ (by rw [Nat.add_zero]) ?_
  apply List.map_congr_left
  intro i _
  simp only [Function.comp_apply]
  congr 1
  omega

/-- A transport failing on every attempt exhausts the whole retry budget:
`r + 1` physical attempts, the backoff sleeps in between, and the exception
of the last attempt propagating. -/
theorem session_go_all_exn (t : Nat → AttemptOutcome) (b : ℚ) (fl : List Nat)
    (e : Nat → String) (he : ∀ n, t n = .exn (e n)) :
    ∀ r a, session_go t b fl r a =
      ⟨.exn (e (a + r)), r + 1,
        (List.range r).map (fun i => backoff_time b (a + i))⟩ := by
  intro r
  induction r with
  | zero => intro a; simp [session_go, he a]
  | succ r ih =>
    intro a
    rw [session_go, he a]
    simp only [ih (a + 1)]
    rw [show a + 1 + r = a + (r + 1) by omega, sleeps_shift]

/-- A server answering every attempt with a forcelist status exhausts the
budget and (since `raise_on_status=False`) the last response is returned. -/
theorem session_go_all_force (t : Nat → AttemptOutcome) (b : ℚ) (fl : List Nat)
    (st : Nat) (body : Nat → Body) (hst : st ∈ fl)
    (ht : ∀ n, t n = .resp st (body n)) :
    ∀ r a, session_go t b fl r a =
      ⟨.resp st (body (a + r)), r + 1,
        (List.range r).map (fun i => backoff_time b (a + i))⟩ := by
  intro r
  induction r with
  | zero => intro a; simp [session_go, ht a]
  | succ r ih =>
    intro a
    rw [session_go, ht a]
    simp only [if_pos hst, ih (a + 1)]
    rw [show a + 1 + r = a + (r + 1) by omega, sleeps_shift]

/-- A transport failing on the first `k ≤ budget` attempts and then producing
a non-forcelist response makes `k + 1` physical attempts, sleeping the
backoff sequence in between, and returns that response. -/
theorem session_go_transient (t : Nat → AttemptOutcome) (b : ℚ) (fl : List Nat)
    (e : Nat → String) (st : Nat) (body : Body) (hnot : st ∉ fl) :
    ∀ k a r, k ≤ r → (∀ i, i < k → t (a + i) = .exn (e (a + i))) →
      t (a + k) = .resp st body →
      session_go t b fl r a =
        ⟨.resp st body, k + 1,
          (List.range k).map (fun i => backoff_time b (a + i))⟩ := by
  intro k
  induction k with
  | zero =>
    intro a r _ _ hsucc
    rw [Nat.add_zero] at hsucc
    cases r with
    | zero => simp [session_go, hsucc]
    | succ r => simp [session_go, hsucc, if_neg hnot]
  | succ k ih =>
    intro a r hkr hfail hsucc
    cases r with
    | zero => omega
    | succ r =>
      have h0 : t a = .exn (e a) := by
        have := hfail 0 (by omega)
        rwa [Nat.add_zero] at this
      rw [session_go, h0]
      have hrec := ih (a + 1) r (by omega)
        (fun i hi => by
          have := hfail (i + 1) (by omega)
          rwa [show a + (i + 1) = a + 1 + i by omega] at this)
        (by rwa [show a + 1 + k = a + (k + 1) by omega])
      simp only [hrec]
      rw [sleeps_shift]

theorem stripLead_eq (sep : List Char) :
    ∀ l rest, stripLead sep l = some rest → l = sep ++ rest := by
  induction sep with
  | nil => intro l rest h; simp [stripLead] at h; simp [h]
  | cons a as ih =>
    intro l rest h
    cases l with
    | nil => simp [stripLead] at h
    | cons b bs =>
      rw [stripLead] at h
      split at h
      · next heq =>
        subst heq
        simpa using ih bs rest h
      · exact absurd h (by simp)

theorem splitFirst_eq (sep : List Char) :
    ∀ l pre post, splitFirst sep l = some (pre, post) → l = pre ++ sep ++ post := by
  intro l
  induction l with
  | nil => intro pre post h; simp [splitFirst] at h
  | cons c cs ih =>
    intro pre post h
    rw [splitFirst] at h
    split at h
    · next rest hstrip =>
      obtain ⟨h1, h2⟩ := by simpa using h
      subst h1; subst h2
      simpa using stripLead_eq sep _ _ hstrip
    · next hstrip =>
      split at h
      · next p q hsp =>
        obtain ⟨h1, h2⟩ := by simpa using h
        subst h1; subst h2
        have := ih p q hsp
        simp [this]
      · exact absurd h (by simp)

theorem data_append (a b : String) : (a ++ b).data = a.data ++ b.data := rfl

theorem afterFirst_suffixDecomp (sep s : String) :
    ∃ l, s.data = l ++ (afterFirst sep s).data := by
  rw [afterFirst]
  split
  · next pre post h =>
    exact ⟨pre ++ sep.data, by simpa using splitFirst_eq _ _ _ _ h⟩
  · exact ⟨[], rfl⟩

theorem beforeFirst_prefixDecomp (sep s : String) :
    ∃ r, s.data = (beforeFirst sep s).data ++ r := by
  rw [beforeFirst]
  split
  · next pre post h =>
    exact ⟨sep.data ++ post, by simpa using splitFirst_eq _ _ _ _ h⟩
  · exact ⟨[], by simp⟩

/-- The host extracted by `_diagnose_dns` is a contiguous substring of the
base URL. -/
theorem extractHost_infixDecomp (s : String) :
    ∃ l r, s.data = l ++ (extractHost s).data ++ r := by
  obtain ⟨l, hl⟩ := afterFirst_suffixDecomp "://" s
  obtain ⟨r, hr⟩ := beforeFirst_prefixDecomp "/" (afterFirst "://" s)
  exact ⟨l, r, by rw [hl, hr, extractHost]; simp⟩

theorem head_dropWhile_ne (p : Char → Bool) :
    ∀ l : List Char, ∀ c, (l.dropWhile p).head? = some c → p c = false := by
  intro l
  induction l with
  | nil => intro c h; simp [List.dropWhile] at h
  | cons a as ih =>
    intro c h
    rw [List.dropWhile] at h
    by_cases hp : p a
    · rw [hp] at h; simpa using ih c h
    · simp only [Bool.not_eq_true] at hp
      rw [hp] at h
      simp at h
      rwa [← h]

/-- `rstrip("/")` leaves no trailing slash at all. -/
theorem rstrip_no_trailing (s : String) :
    (rstrip_slashes s).data.reverse.head? ≠ some '/' := by
  intro h
  rw [rstrip_slashes] at h
  simp only [List.reverse_reverse] at h
  have := head_dropWhile_ne (fun c => c = '/') s.data.reverse '/' h
  simp at this

/-- `rstrip("/")` removes every trailing slash, not just one. -/
theorem rstrip_drop_one (s : String) :
    rstrip_slashes (s ++ "/") = rstrip_slashes s := by
  rw [rstrip_slashes, rstrip_slashes]
  have : (s ++ "/").data = s.data ++ ['/'] := rfl
  rw [this]
  simp [List.dropWhile]

/-! ### Claim C8 — base-URL normalization at construction -/

/-- C8 counterexample: the claim says construction strips exactly one
trailing slash, so `"https://x//"` should become `"https://x/"`.  The code
calls `rstrip("/")`, which strips them all: the stored base URL is
`"https://x"`, not `"https://x/"`. -/
theorem c8_counterexample :
    init_client (some "key") "https://x//" none 20 3 (4/5) (fun _ => none)
      = .ok ⟨"https://x", "key", "AccessKey", 20, 3, 4/5⟩ ∧
    ("https://x" : String) ≠ "https://x/" := by
  exact ⟨rfl, by decide⟩

/-- C8 (amended): at construction the base URL is normalized by stripping
ALL trailing slashes (the result never ends in a slash, and appending a
slash before construction changes nothing); no other validation of the base
URL is performed — any string yields a successfully constructed client when
an API key resolves. -/
theorem c8_amended (api_key : Option String) (base_url : String)
    (header_name : Option String) (timeout : Int) (max_retries : Nat)
    (backoff : ℚ) (env : String → Option String) (cfg : ClientCfg) (s : String)
    (h : init_client api_key base_url header_name timeout max_retries backoff env
      = .ok cfg) :
    cfg.base_url = normalized_base base_url ∧
    rstrip_slashes (s ++ "/") = rstrip_slashes s ∧
    (rstrip_slashes s).data.reverse.head? ≠ some '/' := by
  refine ⟨?_, rstrip_drop_one s, rstrip_no_trailing s⟩
  simp only [init_client] at h
  cases hk : resolve_key api_key env with
  | none => rw [hk] at h; simp at h
  | some k =>
    rw [hk] at h
    by_cases hke : k = ""
    · simp [hke] at h
    · simp only [hke, if_neg, ite_false] at h
      injection h with h2
      rw [← h2]

/-- C8 witness for `c8_amended` at a concrete construction. -/
theorem c8_witness :
    (⟨"https://a", "key", "AccessKey", 20, 3, 4/5⟩ : ClientCfg).base_url
        = normalized_base "https://a///" ∧
    rstrip_slashes ("x//" ++ "/") = rstrip_slashes "x//" ∧
    (rstrip_slashes "x//").data.reverse.head? ≠ some '/' :=
  c8_amended (some "key") "https://a///" none 20 3 (4/5) (fun _ => none)
    ⟨"https://a", "key", "AccessKey", 20, 3, 4/5⟩ "x//" rfl

/-! ### Claim C9 — missing API key fails construction -/

/-- C9: construction fails with the configuration error exactly when no API
key resolves from the explicit argument or the `DEBANK_API_KEY` environment
source (`None`/empty both ways); when a non-empty key resolves, construction
succeeds and stores it.  `init_client` is a pure function of its arguments —
no transport or DNS oracle is involved — so no network activity occurs
either way. -/
theorem c9_config_error (api_key : Option String) (base_url : String)
    (header_name : Option String) (timeout : Int) (max_retries : Nat)
    (backoff : ℚ) (env : String → Option String) :
    ((resolve_key api_key env).getD "" = "" →
      init_client api_key base_url header_name timeout max_retries backoff env
        = .error missing_key_msg) ∧
    (∀ k, resolve_key api_key env = some k → k ≠ "" →
      init_client api_key base_url header_name timeout max_retries backoff env
        = .ok ⟨normalized_base base_url, k, resolve_header header_name env,
               timeout, max_retries, backoff⟩) := by
  constructor
  · intro h
    simp only [init_client]
    cases hk : resolve_key api_key env with
    | none => rfl
    | some k =>
      rw [hk] at h
      simp only [Option.getD_some] at h
      simp [h]
  · intro k hk hne
    simp only [init_client, hk]
    simp [hne]

/-- C9 witness: a concrete failing construction (no key anywhere) and a
concrete succeeding one. -/
theorem c9_witness :
    init_client none DEFAULT_BASE_URL none 20 3 (4/5) (fun _ => none)
      = .error missing_key_msg ∧
    init_client (some "secret") DEFAULT_BASE_URL none 20 3 (4/5) (fun _ => none)
      = .ok ⟨normalized_base DEFAULT_BASE_URL, "secret",
             resolve_header none (fun _ => none), 20, 3, 4/5⟩ := by
  constructor
  · exact (c9_config_error none DEFAULT_BASE_URL none 20 3 (4/5)
      (fun _ => none)).1 rfl
  · exact (c9_config_error (some "secret") DEFAULT_BASE_URL none 20 3 (4/5)
      (fun _ => none)).2 "secret" rfl (by decide)

/-! ### Claim C10 — `start_time == 0` is omitted like `None` -/

/-- C10: in both history endpoints the `start_time` query parameter is
omitted for `start_time = 0` exactly as for `None` (the dicts coincide), and
it is included iff `start_time` is a non-zero value. -/
theorem c10_start_time (addr chain_id : String) (page_count v : Int) :
    get_all_history_list_params addr (some 0) page_count
        = get_all_history_list_params addr none page_count ∧
    get_history_list_params addr chain_id (some 0) page_count
        = get_history_list_params addr chain_id none page_count ∧
    ("start_time" ∈ paramKeys (get_all_history_list_params addr (some v) page_count)
        ↔ v ≠ 0) ∧
    "start_time" ∉ paramKeys (get_all_history_list_params addr none page_count) ∧
    ("start_time" ∈ paramKeys (get_history_list_params addr chain_id (some v) page_count)
        ↔ v ≠ 0) ∧
    "start_time" ∉ paramKeys (get_history_list_params addr chain_id none page_count) := by
  refine ⟨by simp [get_all_history_list_params], by simp [get_history_list_params],
    ?_, ?_, ?_, ?_⟩
  · by_cases hv : v = 0 <;> simp [get_all_history_list_params, paramKeys, hv]
  · simp [get_all_history_list_params, paramKeys]
  · by_cases hv : v = 0 <;> simp [get_history_list_params, paramKeys, hv]
  · simp [get_history_list_params, paramKeys]

/-- C10 witness at concrete arguments. -/
theorem c10_witness :
    get_all_history_list_params "0xabc" (some 0) 50
      = get_all_history_list_params "0xabc" none 50 ∧
    ("start_time" ∈ paramKeys (get_all_history_list_params "0xabc" (some 7) 50)
      ↔ (7 : Int) ≠ 0) :=
  ⟨(c10_start_time "0xabc" "eth" 50 7).1, (c10_start_time "0xabc" "eth" 50 7).2.2.1⟩

/-! ### Claim C4 — response envelope normalization -/

/-- C4: a successful `get` returns the normalized payload: the value under
`"data"` when the parsed body is an object containing that key, and the
parsed body unchanged otherwise (object without the key, or array). -/
theorem c4_envelope (cl : ClientCfg) (dns : String → Option String)
    (t : Nat → AttemptOutcome) (path : String) (params : Params)
    (text : String) (j : Json)
    (hdns : dns (extractHost cl.base_url) = none)
    (ht : t 1 = .resp 200 ⟨text, some j⟩) :
    (debank_get cl dns t path params).result = .ok (normalize_payload j) ∧
    (∀ fields v, j = .obj fields → lookupField "data" fields = some v →
      normalize_payload j = v) ∧
    (∀ fields, j = .obj fields → lookupField "data" fields = none →
      normalize_payload j = j) ∧
    (∀ elems, j = .arr elems → normalize_payload j = j) := by
  refine ⟨?_, ?_, ?_, ?_⟩
  · have hsess : session_get cl t = ⟨.resp 200 ⟨text, some j⟩, 1, []⟩ := by
      rw [session_get]
      exact session_go_transient t cl.backoff status_forcelist (fun _ => "") 200
        ⟨text, some j⟩ (by decide) 0 1 cl.max_retries (Nat.zero_le _)
        (fun i hi => absurd hi (Nat.not_lt_zero i)) (by simpa using ht)
    simp [debank_get, diagnose_dns, hdns, hsess]
  · intro fields v hj hv; subst hj; simp [normalize_payload, hv]
  · intro fields hj hv; subst hj; simp [normalize_payload, hv]
  · intro elems hj; subst hj; simp [normalize_payload]

/-- C4 witness: an enveloped body is unwrapped. -/
theorem c4_witness :
    (debank_get cl0 dns_ok
      (fun _ => .resp 200 ⟨"d", some (.obj [("data", .str "X")])⟩)
      "/v1/user/total_balance" []).result = .ok (.str "X") :=
  ((c4_envelope cl0 dns_ok
    (fun _ => .resp 200 ⟨"d", some (.obj [("data", .str "X")])⟩)
    "/v1/user/total_balance" [] "d" (.obj [("data", .str "X")]) rfl rfl).1).trans rfl

/-! ### Claim C6 — DNS pre-check failure -/

/-- C6: when the base URL's host fails the pre-flight DNS resolution, `get`
fails at once with the DNS `DebankError`: zero transport invocations, no
sleeps, and a message carrying the host string (a substring of the base URL
interpolated into the diagnosis), the underlying resolution failure, and the
remediation hint. -/
theorem c6_dns_precheck (cl : ClientCfg) (dns : String → Option String)
    (t : Nat → AttemptOutcome) (path : String) (params : Params) (err : String)
    (h : dns (extractHost cl.base_url) = some err) :
    (debank_get cl dns t path params).invocations = 0 ∧
    (debank_get cl dns t path params).sleeps = [] ∧
    (debank_get cl dns t path params).result
      = .error (.debank (.dnsFailure (dns_diagnosis cl.base_url err))) ∧
    (∃ l r, (DebankError.dnsFailure (dns_diagnosis cl.base_url err)).message.data
      = l ++ (extractHost cl.base_url).data ++ r) ∧
    (∃ l, (DebankError.dnsFailure (dns_diagnosis cl.base_url err)).message.data
      = l ++ err.data ++ dns_hint.data) := by
  have hd : diagnose_dns cl.base_url dns = some (dns_diagnosis cl.base_url err) := by
    rw [diagnose_dns, h]
  refine ⟨by simp [debank_get, hd], by simp [debank_get, hd],
    by simp [debank_get, hd], ?_, ?_⟩
  · obtain ⟨l, r, hlr⟩ := extractHost_infixDecomp cl.base_url
    refine ⟨"DNS failed for host in Base URL '".data ++ l,
            r ++ "': ".data ++ err.data ++ dns_hint.data, ?_⟩
    simp only [DebankError.message, dns_diagnosis, data_append, hlr]
    simp
  · refine ⟨"DNS failed for host in Base URL '".data ++ cl.base_url.data
      ++ "': ".data, ?_⟩
    simp only [DebankError.message, dns_diagnosis, data_append]

/-- C6 witness: concrete resolution failure; the transport is a live mock
that would answer, yet is never invoked. -/
theorem c6_witness :
    (debank_get cl0 dns_fail t_429_always "/v1/user/total_balance" []).invocations
      = 0 ∧
    (debank_get cl0 dns_fail t_429_always "/v1/user/total_balance" []).result
      = .error (.debank (.dnsFailure
          (dns_diagnosis cl0.base_url "getaddrinfo failed"))) :=
  ⟨(c6_dns_precheck cl0 dns_fail t_429_always "/v1/user/total_balance" []
      "getaddrinfo failed" rfl).1,
   (c6_dns_precheck cl0 dns_fail t_429_always "/v1/user/total_balance" []
      "getaddrinfo failed" rfl).2.2.1⟩

/-! ### Claim C7 — unparseable 2xx body -/

/-- C7 counterexample: a 2xx whose body is not JSON does NOT surface as a
`DebankError` of the client's taxonomy — `r.json()` on line 101 is outside
every `try`, so the parse exception escapes `_get` unclassified. -/
theorem c7_counterexample :
    (debank_get cl0 dns_ok t_bad_json "/p" []).result
      = .error (.jsonDecode "<html>") ∧
    raisedDebank (debank_get cl0 dns_ok t_bad_json "/p" []) = false :=
  ⟨rfl, rfl⟩

/-- C7 (amended): for every 2xx response whose body is not parseable as
JSON, `get` fails with the unclassified JSON-decode exception — outside the
`DebankError` taxonomy — rather than with any documented error kind. -/
theorem c7_amended (cl : ClientCfg) (dns : String → Option String)
    (t : Nat → AttemptOutcome) (path : String) (params : Params) (text : String)
    (hdns : dns (extractHost cl.base_url) = none)
    (ht : t 1 = .resp 200 ⟨text, none⟩) :
    (debank_get cl dns t path params).result = .error (.jsonDecode text) ∧
    raisedDebank (debank_get cl dns t path params) = false := by
  have hsess : session_get cl t = ⟨.resp 200 ⟨text, none⟩, 1, []⟩ := by
    rw [session_get]
    exact session_go_transient t cl.backoff status_forcelist (fun _ => "") 200
      ⟨text, none⟩ (by decide) 0 1 cl.max_retries (Nat.zero_le _)
      (fun i hi => absurd hi (Nat.not_lt_zero i)) (by simpa using ht)
  constructor
  · simp [debank_get, diagnose_dns, hdns, hsess]
  · simp [raisedDebank, debank_get, diagnose_dns, hdns, hsess]

/-- C7 witness for the amended statement at a concrete transport. -/
theorem c7_witness :
    (debank_get cl0 dns_ok (fun _ => .resp 200 ⟨"no body", none⟩) "/q" []).result
      = .error (.jsonDecode "no body") ∧
    raisedDebank (debank_get cl0 dns_ok (fun _ => .resp 200 ⟨"no body", none⟩) "/q" [])
      = false :=
  c7_amended cl0 dns_ok (fun _ => .resp 200 ⟨"no body", none⟩) "/q" [] "no body"
    rfl rfl

/-! ### Claim C1 — HTTP 429 handling -/

/-- C1 counterexample: with the constructor's `max_retries = 3`, a 429 on
the first attempt is retried by the mounted adapter (429 is in
`status_forcelist`); when the second attempt succeeds, `get` returns the
payload instead of failing, and the transport is invoked twice, not once. -/
theorem c1_counterexample :
    (debank_get cl0 dns_ok t_429_then_ok "/p" []).result = .ok (.str "ok") ∧
    (debank_get cl0 dns_ok t_429_then_ok "/p" []).invocations = 2 :=
  ⟨rfl, rfl⟩

/-- C1 (amended): 429 responses are retried at the adapter level like 5xx;
when every attempt returns 429, `get` raises the rate-limit `DebankError` —
whose message carries the guidance to reduce call frequency — only after
`max_retries + 1` transport invocations. -/
theorem c1_amended (cl : ClientCfg) (dns : String → Option String)
    (t : Nat → AttemptOutcome) (path : String) (params : Params) (body : Body)
    (hdns : dns (extractHost cl.base_url) = none)
    (h429 : ∀ n, t n = .resp 429 body) :
    (debank_get cl dns t path params).result = .error (.debank .rateLimited) ∧
    (debank_get cl dns t path params).invocations = cl.max_retries + 1 ∧
    DebankError.rateLimited.message
      = "Rate limited by DeBank (HTTP 429). Reduce frequency or add backoff." := by
  have hsess : session_get cl t
      = ⟨.resp 429 body, cl.max_retries + 1,
         (List.range cl.max_retries).map (fun i => backoff_time cl.backoff (1 + i))⟩ := by
    rw [session_get]
    exact session_go_all_force t cl.backoff status_forcelist 429 (fun _ => body)
      (by decide) h429 cl.max_retries 1
  refine ⟨?_, ?_, rfl⟩
  · simp [debank_get, diagnose_dns, hdns, hsess]
  · simp [debank_get, diagnose_dns, hdns, hsess]

/-- C1 witness: persistent 429 with the concrete default configuration. -/
theorem c1_witness :
    (debank_get cl0 dns_ok t_429_always "/p" []).result
      = .error (.debank .rateLimited) ∧
    (debank_get cl0 dns_ok t_429_always "/p" []).invocations = cl0.max_retries + 1 :=
  ⟨(c1_amended cl0 dns_ok t_429_always "/p" [] ⟨"slow down", none⟩ rfl
      (fun _ => rfl)).1,
   (c1_amended cl0 dns_ok t_429_always "/p" [] ⟨"slow down", none⟩ rfl
      (fun _ => rfl)).2.1⟩

/-! ### Claim C2 — retry backoff -/

/-- C2 counterexample: with `backoff = 0.8`, a transport failing only on the
first attempt (`k = 1`) is retried after a wait of `0`, not `0.8 * 1`: the
retry machinery never sleeps before the first retry, so the total waited
time `0` is below the claimed lower bound `backoffBase * 1`. -/
theorem c2_counterexample :
    (debank_get cl0 dns_ok t_fail_once "/p" []).result = .ok (.obj []) ∧
    (debank_get cl0 dns_ok t_fail_once "/p" []).sleeps = [0] ∧
    ¬ ((4/5 : ℚ) * 1 ≤ ((debank_get cl0 dns_ok t_fail_once "/p" []).sleeps).sum) := by
  refine ⟨rfl, rfl, ?_⟩
  intro hle
  have h : ((debank_get cl0 dns_ok t_fail_once "/p" []).sleeps).sum = (0 : ℚ) := by
    norm_num [show (debank_get cl0 dns_ok t_fail_once "/p" []).sleeps = [0] from rfl]
  rw [h] at hle
  norm_num at hle

/-- C2 (amended): backoff is urllib3-exponential with no wait before the
first retry: the wait before retry `n` is `0` for `n = 1` and
`min(120, backoff * 2^(n-1))` for `n ≥ 2`.  A transport failing transiently
on the first `k ≤ max_retries` attempts and succeeding on attempt `k + 1`
yields the successful normalized payload after exactly `k + 1` invocations
with exactly those waits in between. -/
theorem c2_amended (cl : ClientCfg) (dns : String → Option String)
    (t : Nat → AttemptOutcome) (path : String) (params : Params)
    (k : Nat) (e : Nat → String) (text : String) (j : Json)
    (hdns : dns (extractHost cl.base_url) = none)
    (hk : k ≤ cl.max_retries)
    (hfail : ∀ i, i < k → t (1 + i) = .exn (e (1 + i)))
    (hsucc : t (1 + k) = .resp 200 ⟨text, some j⟩) :
    (debank_get cl dns t path params).result = .ok (normalize_payload j) ∧
    (debank_get cl dns t path params).invocations = k + 1 ∧
    (debank_get cl dns t path params).sleeps
      = (List.range k).map (fun i => backoff_time cl.backoff (1 + i)) ∧
    backoff_time cl.backoff 1 = 0 ∧
    (∀ n, 2 ≤ n → backoff_time cl.backoff n
      = min 120 (cl.backoff * 2 ^ (n - 1))) := by
  have hsess : session_get cl t
      = ⟨.resp 200 ⟨text, some j⟩, k + 1,
         (List.range k).map (fun i => backoff_time cl.backoff (1 + i))⟩ := by
    rw [session_get]
    exact session_go_transient t cl.backoff status_forcelist e 200 ⟨text, some j⟩
      (by decide) k 1 cl.max_retries hk hfail hsucc
  refine ⟨?_, ?_, ?_, rfl, ?_⟩
  · simp [debank_get, diagnose_dns, hdns, hsess]
  · simp [debank_get, diagnose_dns, hdns, hsess]
  · simp [debank_get, diagnose_dns, hdns, hsess]
  · intro n hn
    rw [backoff_time, if_neg (by omega)]

/-- C2 witness: two transient failures (`k = 2`) under the concrete default
configuration. -/
theorem c2_witness :
    (debank_get cl0 dns_ok t_fail_twice "/p" []).result
      = .ok (normalize_payload (.arr [])) ∧
    (debank_get cl0 dns_ok t_fail_twice "/p" []).invocations = 2 + 1 ∧
    (debank_get cl0 dns_ok t_fail_twice "/p" []).sleeps
      = (List.range 2).map (fun i => backoff_time cl0.backoff (1 + i)) := by
  have h := c2_amended cl0 dns_ok t_fail_twice "/p" [] 2 (fun _ => "boom") "[]"
    (.arr []) rfl (by decide)
    (fun i hi => by
      match i with
      | 0 => rfl
      | 1 => rfl
      | n + 2 => exact absurd hi (by omega))
    rfl
  exact ⟨h.1, h.2.1, h.2.2.1⟩

/-! ### Claim C3 — exhausted transport retries -/

/-- C3 counterexample: with the constructor input `max_retries = 3` (the
spec's `maxAttempts`), a transport failing on every attempt is tried
`4 = max_retries + 1` times, not `max_retries` times. -/
theorem c3_counterexample :
    (debank_get cl0 dns_ok t_fail_always "/p" []).invocations = 4 ∧
    (debank_get cl0 dns_ok t_fail_always "/p" []).result
      = .error (.debank (.networkFailure "https://api.cloud.debank.com/p"
          "conn refused")) ∧
    (4 : Nat) ≠ cl0.max_retries :=
  ⟨rfl, rfl, by decide⟩

/-- C3 (amended): a transport failing retryably on every attempt makes
exactly `max_retries + 1` physical attempts, after which `get` raises the
network `DebankError` whose message carries the full URL (hence the path)
and the last underlying error; no attempt count appears in the message. -/
theorem c3_amended (cl : ClientCfg) (dns : String → Option String)
    (t : Nat → AttemptOutcome) (path : String) (params : Params)
    (e : Nat → String)
    (hdns : dns (extractHost cl.base_url) = none)
    (hfail : ∀ n, t n = .exn (e n)) :
    (debank_get cl dns t path params).result
      = .error (.debank (.networkFailure (cl.base_url ++ path)
          (e (1 + cl.max_retries)))) ∧
    (debank_get cl dns t path params).invocations = cl.max_retries + 1 ∧
    (DebankError.networkFailure (cl.base_url ++ path)
        (e (1 + cl.max_retries))).message
      = "Network error calling " ++ (cl.base_url ++ path) ++ ": "
        ++ e (1 + cl.max_retries) ++ ". Check VPN/Proxy/DNS." := by
  have hsess : session_get cl t
      = ⟨.exn (e (1 + cl.max_retries)), cl.max_retries + 1,
         (List.range cl.max_retries).map (fun i => backoff_time cl.backoff (1 + i))⟩ := by
    rw [session_get]
    exact session_go_all_exn t cl.backoff status_forcelist e hfail cl.max_retries 1
  refine ⟨?_, ?_, rfl⟩
  · simp [debank_get, diagnose_dns, hdns, hsess]
  · simp [debank_get, diagnose_dns, hdns, hsess]

/-- C3 witness: always-failing transport under the concrete default
configuration. -/
theorem c3_witness :
    (debank_get cl0 dns_ok t_fail_always "/q" []).result
      = .error (.debank (.networkFailure (cl0.base_url ++ "/q") "conn refused")) ∧
    (debank_get cl0 dns_ok t_fail_always "/q" []).invocations = cl0.max_retries + 1 :=
  ⟨(c3_amended cl0 dns_ok t_fail_always "/q" [] (fun _ => "conn refused") rfl
      (fun _ => rfl)).1,
   (c3_amended cl0 dns_ok t_fail_always "/q" [] (fun _ => "conn refused") rfl
      (fun _ => rfl)).2.1⟩

/-! ### Claim C5 — summarize_wallet composition -/

/-- C5 counterexample: a total-balance payload with `net_usd_value` present
but `0`.  The claim ("falls back to `usd_value` only when `net_usd_value`
is absent") demands `netUsd = 0`, yet `total.get("net_usd_value") or
total.get("usd_value")` treats the falsy `0` like an absence and yields
`100`. -/
theorem c5_counterexample :
    lookupField "net_usd_value"
        [("usd_value", Json.num 100), ("net_usd_value", Json.num 0)]
      = some (.num 0) ∧
    (summarize_wallet g_net_zero "0xabc").result
      = .ok (.obj [("address", .str "0xabc"), ("total_usd", .num 100),
                   ("net_usd", .num 100), ("chains", .arr []),
                   ("positions", .arr [])]) ∧
    Json.num 100 ≠ Json.num 0 := by
  refine ⟨rfl, rfl, ?_⟩
  intro h
  injection h with h2
  norm_num at h2

/-- C5 (amended): `summarize_wallet` issues exactly the three underlying
calls (total-balance, used-chains, aggregated-positions) and composes the
record with `netUsd = net_usd_value or usd_value`, i.e. preferring
`net_usd_value` when it is truthy and falling back to `usd_value` when it is
absent or falsy (`null`, `0`, …). -/
theorem c5_amended (g : String → Params → Except GetError Json) (addr : String)
    (total chains positions : Json)
    (h1 : g "/v1/user/total_balance" [("id", .s addr)] = .ok total)
    (h2 : g "/v1/user/used_chain_list" [("id", .s addr)] = .ok chains)
    (h3 : g "/v1/user/all_complex_protocol_list" [("id", .s addr)] = .ok positions) :
    (summarize_wallet g addr).calls
      = ["/v1/user/total_balance", "/v1/user/used_chain_list",
         "/v1/user/all_complex_protocol_list"] ∧
    (summarize_wallet g addr).result = .ok (.obj
      [("address", .str addr),
       ("total_usd", total.get "usd_value"),
       ("net_usd", pyOr (total.get "net_usd_value") (total.get "usd_value")),
       ("chains", chains),
       ("positions", positions)]) := by
  simp only [summarize_wallet, total_balance_req, used_chains_req,
    complex_protocol_req, h1, h2, h3]
  exact ⟨trivial, trivial⟩

/-- C5 witness: the two payloads named by the claim — with
`{"usd_value": 100, "net_usd_value": 90}` the composed `net_usd` is `90`;
with `{"usd_value": 100}` it is `100` — and the three calls issued. -/
theorem c5_witness :
    (summarize_wallet g_net_90 "0xabc").calls
      = ["/v1/user/total_balance", "/v1/user/used_chain_list",
         "/v1/user/all_complex_protocol_list"] ∧
    (summarize_wallet g_net_90 "0xabc").result
      = .ok (.obj [("address", .str "0xabc"), ("total_usd", .num 100),
                   ("net_usd", .num 90), ("chains", .arr []),
                   ("positions", .arr [])]) ∧
    (summarize_wallet g_no_net "0xabc").result
      = .ok (.obj [("address", .str "0xabc"), ("total_usd", .num 100),
                   ("net_usd", .num 100), ("chains", .arr []),
                   ("positions", .arr [])]) := by
  refine ⟨(c5_amended g_net_90 "0xabc"
      (.obj [("usd_value", .num 100), ("net_usd_value", .num 90)])
      (.arr []) (.arr []) rfl rfl rfl).1, ?_, ?_⟩
  · exact ((c5_amended g_net_90 "0xabc"
      (.obj [("usd_value", .num 100), ("net_usd_value", .num 90)])
      (.arr []) (.arr []) rfl rfl rfl).2).trans rfl
  · exact ((c5_amended g_no_net "0xabc" (.obj [("usd_value", .num 100)])
      (.arr []) (.arr []) rfl rfl rfl).2).trans rfl
